import Mathlib

/-!
Shallow embedding of the BananaPicGen core (batch orchestration, prompt
editor autosave/sync, usage/cost accounting) and proofs of the spec claims.

Numbers that are JavaScript `number`s in the source are modelled as `ℚ`;
timestamps (`Date.now()`) as `ℕ` milliseconds.
-/

namespace Banana

/-- `ModelType` from src/services/TokenUsage.ts. -/
inductive ModelType
  | gemini25FlashImage
  | gemini3ProImagePreview
deriving DecidableEq, Repr

/-- One row of the `PRICING` table (USD rates). -/
structure Pricing where
  input : ℚ
  output_text : ℚ
  output_image : ℚ
  output_imageflat : ℚ
deriving DecidableEq, Repr

/-- The `PRICING` constant from src/services/TokenUsage.ts. -/
def PRICING : ModelType → Pricing
  | .gemini25FlashImage =>
      { input := 0
        output_text := 0
        output_image := 0
        output_imageflat := 39 / 1000 }      -- $0.039 flat rate per image
  | .gemini3ProImagePreview =>
      { input := 2 / 1000000                 -- $2.00 per 1M tokens
        output_text := 12 / 1000000          -- $12.00 per 1M tokens
        output_image := 120 / 1000000        -- $120.00 per 1M tokens
        output_imageflat := 0 }

/-- The `TokenUsage` class state (src/services/TokenUsage.ts). -/
structure TokenUsage where
  total : ℚ := 0
  input : ℚ := 0
  output_image : ℚ := 0
  output_text : ℚ := 0
  images : ℚ := 0
  total_cost : ℚ := 0
  historic_cost : ℚ := 0
  historic_images : ℚ := 0
deriving DecidableEq, Repr

/-- The plain serialized object `TokenUsageData` (all eight fields present),
as produced by `toJSON`. -/
structure TokenUsageData where
  total : ℚ
  input : ℚ
  output_image : ℚ
  output_text : ℚ
  images : ℚ
  total_cost : ℚ
  historic_cost : ℚ
  historic_images : ℚ
deriving DecidableEq, Repr

/-- `Partial<TokenUsageData>`: every field may be absent. -/
structure TokenUsageDataOpt where
  total : Option ℚ := none
  input : Option ℚ := none
  output_image : Option ℚ := none
  output_text : Option ℚ := none
  images : Option ℚ := none
  total_cost : Option ℚ := none
  historic_cost : Option ℚ := none
  historic_images : Option ℚ := none
deriving DecidableEq, Repr

/-- The `TokenUsage` constructor on a present `data` argument:
each field is `data.field ?? 0`. -/
def TokenUsage.fromJSON (data : TokenUsageDataOpt) : TokenUsage :=
  { total := data.total.getD 0
    input := data.input.getD 0
    output_image := data.output_image.getD 0
    output_text := data.output_text.getD 0
    images := data.images.getD 0
    total_cost := data.total_cost.getD 0
    historic_cost := data.historic_cost.getD 0
    historic_images := data.historic_images.getD 0 }

/-- `TokenUsage.toJSON`. -/
def TokenUsage.toJSON (s : TokenUsage) : TokenUsageData :=
  { total := s.total
    input := s.input
    output_image := s.output_image
    output_text := s.output_text
    images := s.images
    total_cost := s.total_cost
    historic_cost := s.historic_cost
    historic_images := s.historic_images }

/-- View a full serialized object as a partial one (every field present),
as happens when a stored snapshot is parsed back and handed to `fromJSON`. -/
def TokenUsageData.toOpt (d : TokenUsageData) : TokenUsageDataOpt :=
  { total := some d.total
    input := some d.input
    output_image := some d.output_image
    output_text := some d.output_text
    images := some d.images
    total_cost := some d.total_cost
    historic_cost := some d.historic_cost
    historic_images := some d.historic_images }

/-- `TokenUsage.addItem(input, output_text, output_image, model)`. -/
def TokenUsage.addItem (s : TokenUsage) (input output_text output_image : ℚ)
    (model : ModelType) : TokenUsage :=
  let pricing := PRICING model
  let itemCost :=
    input * pricing.input +
    output_text * pricing.output_text +
    output_image * pricing.output_image +
    pricing.output_imageflat
  { s with
    input := s.input + input
    output_text := s.output_text + output_text
    output_image := s.output_image + output_image
    total := s.total + (input + output_text + output_image)
    images := s.images + 1
    total_cost := s.total_cost + itemCost
    historic_cost := s.historic_cost + itemCost
    historic_images := s.historic_images + 1 }

/-- `TokenUsage.reset()`: zeroes `total`, `input`, `output_image`,
`output_text`, `images`, `total_cost`; does not touch the historic fields. -/
def TokenUsage.reset (s : TokenUsage) : TokenUsage :=
  { s with
    total := 0
    input := 0
    output_image := 0
    output_text := 0
    images := 0
    total_cost := 0 }

/-- The record returned by `getCostBreakdown`. -/
structure CostBreakdown where
  inputCost : ℚ
  outputCost : ℚ
  totalCost : ℚ
  historic_cost : ℚ
deriving DecidableEq, Repr

/-- `TokenUsage.getCostBreakdown(model)`, in state-passing form: the method
body only reads fields, so the returned state is the input state. -/
def TokenUsage.getCostBreakdown (s : TokenUsage) (model : ModelType) :
    TokenUsage × CostBreakdown :=
  let pricing := PRICING model
  (s,
   { inputCost := s.input * pricing.input
     outputCost :=
       s.output_text * pricing.output_text +
       s.output_image * pricing.output_image +
       s.images * pricing.output_imageflat
     totalCost := s.total_cost
     historic_cost := s.historic_cost })

/-- The "Load historic data from cloud" effect in the App component
(src/unnamed/part_002, lines 209–231): a remote `historic_cost` /
`historic_images` is adopted only when present and strictly greater than the
local value; no other field is touched. -/
def mergeHistoric (u : TokenUsage) (remoteCost remoteImages : Option ℚ) :
    TokenUsage :=
  let newCost :=
    match remoteCost with
    | some c => if c > u.historic_cost then c else u.historic_cost
    | none => u.historic_cost
  let newImages :=
    match remoteImages with
    | some i => if i > u.historic_images then i else u.historic_images
    | none => u.historic_images
  { u with historic_cost := newCost, historic_images := newImages }

/-! ## Batch orchestration (handleProcess, src/unnamed/part_002) -/

/-- A prompt item as stored in `userDoc.prompts` (src/models/Prompt.ts). -/
structure PromptItem where
  name : String
  prompt : String
  enabled : Bool
  skip_beforeafter_prompt : Bool
deriving DecidableEq, Repr

/-- JS `String.prototype.trim`: drop whitespace from both ends. (Modelled
directly over the character list so that it evaluates by kernel reduction;
`String.trim` in the Lean library is extensionally the same operation.) -/
def jsTrim (s : String) : String :=
  String.mk (((s.data.dropWhile Char.isWhitespace).reverse.dropWhile
    Char.isWhitespace).reverse)

/-- JS truthiness of `p.name.trim()`: nonempty after trimming. -/
def promptSelected (p : PromptItem) : Bool :=
  p.enabled && jsTrim p.name ≠ ""

/-- The `fullPrompt` template string of handleProcess:
`before + (before ? "\n" : "") + base + (after ? "\n" : "") + after`, trimmed.
The item's `skip_beforeafter_prompt` flag is not consulted anywhere in
handleProcess. -/
def composeFullPrompt (beforeText afterText basePrompt : String) : String :=
  jsTrim (beforeText ++ (if beforeText ≠ "" then "\n" else "") ++ basePrompt ++
    (if afterText ≠ "" then "\n" else "") ++ afterText)

/-- One `ProcessingResult` task as built by handleProcess (`Date.now()` id and
the originalFileName bookkeeping are irrelevant to the claims and omitted;
`files` carries the input image set, abstracted as a list of names). -/
structure GenTask where
  files : List String
  promptName : String
  promptText : String
deriving DecidableEq, Repr

/-- Task construction of handleProcess: filter `p.enabled && p.name.trim()`,
then one task per surviving item in list order, each carrying all selected
files and the composed prompt text. `prompt_before` / `prompt_after` may be
absent on the document (`|| ''`). -/
def buildTasks (prompts : List PromptItem) (prompt_before prompt_after : Option String)
    (filesToProcess : List String) : List GenTask :=
  let beforeText := prompt_before.getD ""
  let afterText := prompt_after.getD ""
  (prompts.filter promptSelected).map fun p =>
    { files := filesToProcess
      promptName := p.name
      promptText := composeFullPrompt beforeText afterText p.prompt }

/-- The distinct inline errors reported by handleProcess before a batch
starts. -/
inductive StartError
  | noPromptsConfigured   -- "Error: No prompts configured."
  | noPromptsSelected     -- "Error: No prompts selected."
  | noFilesSelected       -- "Error: No files selected."
  | noApiKey              -- "Error: API Key not configured."
deriving DecidableEq, Repr

/-- The precondition phase of handleProcess, in source order (each early
`return` is the next `else` branch). -/
def checkStart (prompts : Option (List PromptItem)) (selectedFiles : List String)
    (hasKey : Bool) : Except StartError Unit :=
  match prompts with
  | none => .error .noPromptsConfigured
  | some ps =>
    if ps.isEmpty then .error .noPromptsConfigured
    else if (ps.filter promptSelected).isEmpty then .error .noPromptsSelected
    else if selectedFiles.isEmpty then .error .noFilesSelected
    else if !hasKey then .error .noApiKey
    else .ok ()

/-! ### Execution loop -/

/-- Final status of a task after the batch loop. -/
inductive TaskStatus
  | pending
  | processing
  | completed (imageUrl : String)
  | failed (error : String)
deriving DecidableEq, Repr

/-- Outcome of one `generateImageFromReference` call: success with an image
URL and reported token usage, or a thrown error with a message. -/
inductive CallOutcome
  | ok (imageUrl : String) (input output_text output_image : ℚ)
  | err (msg : String)
deriving DecidableEq, Repr

/-- JS `String.prototype.includes`: `sub` occurs contiguously in `l`. -/
def containsSeq [DecidableEq α] (sub : List α) : List α → Bool
  | [] => sub.isEmpty
  | x :: xs => sub.isPrefixOf (x :: xs) || containsSeq sub xs

/-- JS `err.message.includes("Requested entity was not found")`. -/
def isCredentialError (msg : String) : Bool :=
  containsSeq "Requested entity was not found".data msg.data

/-- The sequential processing loop of handleProcess, over the per-task call
outcomes. On success the task completes and usage is added. On failure the
task is marked failed; if the message indicates an invalid credential the
loop `break`s (later tasks keep their initial `pending` status) and `hasKey`
is reset to `false` only when `window.aistudio` is available. -/
def runTasks (outcomes : List CallOutcome) (model : ModelType) (aistudio : Bool)
    (usage : TokenUsage) (hasKey : Bool) :
    List TaskStatus × TokenUsage × Bool :=
  match outcomes with
  | [] => ([], usage, hasKey)
  | .ok url i t g :: rest =>
    let usage' := usage.addItem i t g model
    let (sts, u, k) := runTasks rest model aistudio usage' hasKey
    (.completed url :: sts, u, k)
  | .err m :: rest =>
    if isCredentialError m then
      (.failed m :: rest.map (fun _ => .pending), usage,
       if aistudio then false else hasKey)
    else
      let (sts, u, k) := runTasks rest model aistudio usage hasKey
      (.failed m :: sts, u, k)

/-! ## Prompt editor with autosave and remote sync
(src/components/PromptEditor.tsx = src/unnamed/part_000, plus the App's
`handleSavePrompts` / `handlePromptsChange` from src/unnamed/part_002). -/

/-- Log entry kinds used by the App's `log`. -/
inductive LogKind
  | info
  | success
  | error
  | warning
deriving DecidableEq, Repr

/-- A log entry (timestamp omitted). -/
structure AppLog where
  message : String
  kind : LogKind
deriving DecidableEq, Repr

/-- Combined state of the PromptEditor component and the parent App's
`userDoc` prompt fields (the editor's props). -/
structure EditorSys where
  -- PromptEditor local state and refs
  items : List PromptItem
  beforeText : String
  afterText : String
  hasChanges : Bool
  lastInputTime : ℕ
  isLocalChange : Bool
  isInitialized : Bool
  -- App state mirrored into the editor's props
  docPrompts : List PromptItem
  docBefore : String
  docAfter : String
deriving DecidableEq, Repr

/-- `in-place` update of the i-th element, as `next[index] = {...}` does. -/
def listModify (f : α → α) : ℕ → List α → List α
  | _, [] => []
  | 0, x :: xs => f x :: xs
  | n + 1, x :: xs => x :: listModify f n xs

/-- `handleDrop`: splice the dragged item out, then splice it back in at the
drop index (dropping onto itself is a no-op, guarded by the caller). -/
def moveSplice (src dst : ℕ) (l : List α) : List α :=
  match l.get? src with
  | some x => (l.eraseIdx src).insertIdx dst x
  | none => l

/-- The two prop-driven effects of PromptEditor, run whenever the parent
re-renders it with changed props, in source order:
1. sync `beforeText`/`afterText` from props unless a local change is pending;
2. initialize `items` from props exactly once — a local echo only resets the
   `isLocalChange` flag, and after first initialization local state is the
   source of truth. -/
def propsSyncEffects (s : EditorSys) : EditorSys :=
  let s1 :=
    if s.isLocalChange then s
    else { s with beforeText := s.docBefore, afterText := s.docAfter }
  if s1.isLocalChange then { s1 with isLocalChange := false }
  else if s1.isInitialized then s1
  else { s1 with items := s1.docPrompts, hasChanges := false, isInitialized := true }

/-- A local edit handler: `recordInput()` (stamp time, raise the dirty flag)
plus the state mutation, followed by the `onChange` effect (skipped before
initialization), which raises `isLocalChange`, mirrors the snapshot into the
parent's `userDoc` (handlePromptsChange), and whose prop echo then runs the
prop effects again. -/
def localStep (s : EditorSys) (t : ℕ) (newItems : List PromptItem)
    (newBefore newAfter : String) : EditorSys :=
  let s1 := { s with
    lastInputTime := t
    hasChanges := true
    items := newItems
    beforeText := newBefore
    afterText := newAfter }
  if s1.isInitialized then
    propsSyncEffects { s1 with
      isLocalChange := true
      docPrompts := s1.items
      docBefore := s1.beforeText
      docAfter := s1.afterText }
  else s1

/-- The remote document write, with its outcome abstracted as a boolean. -/
def updateUserDocument (writeOk : Bool) : Except String Unit :=
  if writeOk then .ok () else .error "write failed"

/-- The App's `handleSavePrompts`: awaits the remote write inside a
`try`/`catch`; on success it updates `userDoc` (whose prop echo runs the
editor's prop effects) and logs success, on failure it only logs the error.
The return type has no exception channel: the catch swallows the failure. -/
def handleSavePrompts (s : EditorSys) (writeOk : Bool) : EditorSys × AppLog :=
  match updateUserDocument writeOk with
  | .ok _ =>
    (propsSyncEffects { s with
        docPrompts := s.items
        docBefore := s.beforeText
        docAfter := s.afterText },
     ⟨"Prompts saved to cloud.", .success⟩)
  | .error _ => (s, ⟨"Failed to save prompts.", .error⟩)

/-- The editor's `triggerSave`: invoke `onSave` (= handleSavePrompts) and
clear the dirty flag, unconditionally. -/
def triggerSave (s : EditorSys) (writeOk : Bool) : EditorSys × AppLog :=
  let (s1, lg) := handleSavePrompts s writeOk
  ({ s1 with hasChanges := false }, lg)

/-- One firing of the auto-save interval at time `now`: return without
flushing when the item list is empty, or the dirty flag is down, or fewer
than 5000 ms have elapsed since the last input; otherwise trigger the save. -/
def tickStep (s : EditorSys) (now : ℕ) (writeOk : Bool) :
    EditorSys × Option AppLog :=
  if s.items.isEmpty then (s, none)
  else if !s.hasChanges then (s, none)
  else if 5000 ≤ now - s.lastInputTime then
    let (s1, lg) := triggerSave s writeOk
    (s1, some lg)
  else (s, none)

/-- External events driving the editor system. Each edit event carries the
`Date.now()` timestamp at which it happens; a tick carries the current time
and the outcome of the remote write it may trigger. -/
inductive EdEvent
  | nameEdit (i : ℕ) (v : String) (t : ℕ)
  | textEdit (i : ℕ) (v : String) (t : ℕ)
  | beforeEdit (v : String) (t : ℕ)
  | afterEdit (v : String) (t : ℕ)
  | enabledEdit (i : ℕ) (b : Bool) (t : ℕ)
  | skipEdit (i : ℕ) (b : Bool) (t : ℕ)
  | addPrompt (t : ℕ)
  | removePrompt (i : ℕ) (t : ℕ)
  | movePrompt (src dst : ℕ) (t : ℕ)
  | inboundUpdate (ps : List PromptItem) (b a : String)
  | tick (now : ℕ) (writeOk : Bool)
deriving DecidableEq, Repr

/-- Step function of the editor system. Inbound remote updates replace the
props and run the prop effects; everything else follows the handlers. -/
def stepEd (s : EditorSys) : EdEvent → EditorSys × Option AppLog
  | .nameEdit i v t =>
    (localStep s t (listModify (fun p => { p with name := v }) i s.items)
      s.beforeText s.afterText, none)
  | .textEdit i v t =>
    (localStep s t (listModify (fun p => { p with prompt := v }) i s.items)
      s.beforeText s.afterText, none)
  | .beforeEdit v t => (localStep s t s.items v s.afterText, none)
  | .afterEdit v t => (localStep s t s.items s.beforeText v, none)
  | .enabledEdit i b t =>
    (localStep s t (listModify (fun p => { p with enabled := b }) i s.items)
      s.beforeText s.afterText, none)
  | .skipEdit i b t =>
    (localStep s t
      (listModify (fun p => { p with skip_beforeafter_prompt := b }) i s.items)
      s.beforeText s.afterText, none)
  | .addPrompt t =>
    (localStep s t (s.items ++ [⟨"", "", false, false⟩]) s.beforeText s.afterText,
     none)
  | .removePrompt i t =>
    (localStep s t (s.items.eraseIdx i) s.beforeText s.afterText, none)
  | .movePrompt src dst t =>
    if src = dst then (s, none)
    else (localStep s t (moveSplice src dst s.items) s.beforeText s.afterText, none)
  | .inboundUpdate ps b a =>
    (propsSyncEffects { s with docPrompts := ps, docBefore := b, docAfter := a },
     none)
  | .tick now writeOk => tickStep s now writeOk

/-- Run a list of events, collecting the flush logs. -/
def runEd (s : EditorSys) : List EdEvent → EditorSys × List AppLog
  | [] => (s, [])
  | e :: es =>
    let (s1, lg) := stepEd s e
    let (s2, lgs) := runEd s1 es
    (s2, lg.toList ++ lgs)

/-- The editor right after mounting under a loaded `userDoc`: local state
starts empty/clean (`useState([])`, `useState(promptBefore)`, …) and the
mount run of the prop effects performs the first initialization. -/
def mountEd (ps : List PromptItem) (b a : String) : EditorSys :=
  propsSyncEffects
    { items := []
      beforeText := b
      afterText := a
      hasChanges := false
      lastInputTime := 0
      isLocalChange := false
      isInitialized := false
      docPrompts := ps
      docBefore := b
      docAfter := a }

/-! ## Claim-side definitions and concrete scenario inputs -/

/-- Task construction as the amended claim C1 states it: one task per enabled
item whose trimmed name is non-blank, in list order, each carrying the full
image set; the composed text joins `beforeText`, `item.text`, `afterText`
with a newline inserted after a non-empty `beforeText` and before a non-empty
`afterText`, then trims surrounding whitespace — the skip flag is ignored. -/
def tasksSpecC1 (prompts : List PromptItem) (beforeText afterText : String)
    (files : List String) : List GenTask :=
  (prompts.filter fun p => p.enabled && jsTrim p.name ≠ "").map fun p =>
    { files := files
      promptName := p.name
      promptText :=
        jsTrim (beforeText ++ (if beforeText = "" then "" else "\n") ++ p.prompt ++
          (if afterText = "" then "" else "\n") ++ afterText) }

/-- A concrete prompt item used by scenario traces. -/
def demoItem : PromptItem :=
  { name := "p1", prompt := "text", enabled := true, skip_beforeafter_prompt := false }

/-- A concrete remote prompt item, different from every locally edited one. -/
def demoRemote : PromptItem :=
  { name := "remote", prompt := "different", enabled := false,
    skip_beforeafter_prompt := false }

/-! ## Theorems -/

/-- Helper: `composeFullPrompt` written with the `if`-conditions in the
positive (`= ""`) direction. -/
theorem composeFullPrompt_spec (b a t : String) :
    composeFullPrompt b a t =
      jsTrim (b ++ (if b = "" then "" else "\n") ++ t ++
        (if a = "" then "" else "\n") ++ a) := by
  by_cases hb : b = "" <;> by_cases ha : a = "" <;>
    simp [composeFullPrompt, hb, ha]

/-- C1 (counterexample): an enabled item with `skip_beforeafter_prompt = true`
and a non-empty `beforeText` still gets the surrounding text: its composed
prompt is `"B\nX"`, not `item.text = "X"` as the claim predicts. -/
theorem c1_counterexample :
    buildTasks [⟨"a", "X", true, true⟩] (some "B") none ["img"] =
      [{ files := ["img"], promptName := "a", promptText := "B\nX" }] ∧
    ("B\nX" : String) ≠ "X" := by
  decide

/-- C1 (amended): for every batch start, one task is built per enabled item
whose trimmed name is non-blank, in list order, each carrying the full image
set; the composed text ignores the skip flag and always joins `beforeText`,
`item.text`, `afterText` with a newline after a non-empty `beforeText` and
before a non-empty `afterText`, then trims surrounding whitespace. Absent
document fields behave as `""`. -/
theorem c1_task_construction (prompts : List PromptItem) (b a : String)
    (files : List String) :
    buildTasks prompts (some b) (some a) files = tasksSpecC1 prompts b a files ∧
    buildTasks prompts none none files = tasksSpecC1 prompts "" "" files := by
  constructor <;>
  · simp only [buildTasks, tasksSpecC1, Option.getD_some, Option.getD_none,
      composeFullPrompt_spec]
    rfl

/-- C2 (counterexample): a credential error stops the batch, but when the
hosted key-selection environment (`window.aistudio`) is absent the `hasKey`
flag is left `true` — the authentication-needed flag is not raised, contrary
to the claim. -/
theorem c2_counterexample :
    runTasks [.err "Requested entity was not found"] .gemini25FlashImage
      false {} true =
      ([.failed "Requested entity was not found"], ({} : TokenUsage), true) := by
  decide

/-- C2 (amended): a non-credential failure marks the task failed and the
batch continues with the remaining tasks; a credential failure marks the task
failed, stops the batch (all later tasks stay `pending`), and lowers `hasKey`
only when `window.aistudio` is available, leaving it unchanged otherwise. -/
theorem c2_batch_error_policy (m : String) (rest : List CallOutcome)
    (model : ModelType) (ai : Bool) (u : TokenUsage) (k : Bool) :
    (isCredentialError m = false →
      runTasks (.err m :: rest) model ai u k =
        (.failed m :: (runTasks rest model ai u k).1,
         (runTasks rest model ai u k).2.1,
         (runTasks rest model ai u k).2.2)) ∧
    (isCredentialError m = true →
      runTasks (.err m :: rest) model ai u k =
        (.failed m :: rest.map (fun _ => .pending), u,
         if ai then false else k)) := by
  constructor <;> intro h <;> simp [runTasks, h]

/-- Witness for C2: concrete credential and non-credential failures. -/
theorem c2_witness :
    (runTasks [.err "Requested entity was not found"] .gemini25FlashImage
        true {} true =
      ([.failed "Requested entity was not found"], ({} : TokenUsage), false)) ∧
    (runTasks [.err "boom"] .gemini25FlashImage true {} true =
      ([.failed "boom"], ({} : TokenUsage), true)) := by
  constructor
  · exact (c2_batch_error_policy "Requested entity was not found" []
      .gemini25FlashImage true {} true).2 (by decide)
  · have h := (c2_batch_error_policy "boom" [] .gemini25FlashImage true {}
      true).1 (by decide)
    simpa [runTasks] using h

/-- C3: merging a remote lifetime pair replaces each local value only when
the remote one is strictly greater (result = pointwise max), is never a sum,
never decreases a local value, and an absent remote field changes nothing. -/
theorem c3_merge_lifetime (u : TokenUsage) (c i : ℚ) :
    (mergeHistoric u (some c) (some i)).historic_cost = max u.historic_cost c ∧
    (mergeHistoric u (some c) (some i)).historic_images = max u.historic_images i ∧
    mergeHistoric u none none = u ∧
    (mergeHistoric u (some c) none).historic_images = u.historic_images ∧
    (mergeHistoric u none (some i)).historic_cost = u.historic_cost ∧
    u.historic_cost ≤ (mergeHistoric u (some c) (some i)).historic_cost ∧
    u.historic_images ≤ (mergeHistoric u (some c) (some i)).historic_images ∧
    (c ≤ u.historic_cost →
      (mergeHistoric u (some c) (some i)).historic_cost = u.historic_cost) ∧
    (u.historic_cost < c →
      (mergeHistoric u (some c) (some i)).historic_cost = c) ∧
    (i ≤ u.historic_images →
      (mergeHistoric u (some c) (some i)).historic_images = u.historic_images) ∧
    (u.historic_images < i →
      (mergeHistoric u (some c) (some i)).historic_images = i) := by
  have hc : (if c > u.historic_cost then c else u.historic_cost) =
      max u.historic_cost c := by
    rcases le_or_lt c u.historic_cost with h | h
    · rw [if_neg (not_lt.mpr h), max_eq_left h]
    · rw [if_pos h, max_eq_right h.le]
  have hi : (if i > u.historic_images then i else u.historic_images) =
      max u.historic_images i := by
    rcases le_or_lt i u.historic_images with h | h
    · rw [if_neg (not_lt.mpr h), max_eq_left h]
    · rw [if_pos h, max_eq_right h.le]
  refine ⟨?_, ?_, rfl, rfl, rfl, ?_, ?_, ?_, ?_, ?_, ?_⟩
  · simpa [mergeHistoric] using hc
  · simpa [mergeHistoric] using hi
  · simp only [mergeHistoric]; rw [hc]; exact le_max_left _ _
  · simp only [mergeHistoric]; rw [hi]; exact le_max_left _ _
  · intro h; simp only [mergeHistoric]; rw [hc]; exact max_eq_left h
  · intro h; simp only [mergeHistoric]; rw [hc]; exact max_eq_right h.le
  · intro h; simp only [mergeHistoric]; rw [hi]; exact max_eq_left h
  · intro h; simp only [mergeHistoric]; rw [hi]; exact max_eq_right h.le

/-- Witness for C3: a smaller remote cost leaves the local value, a larger
remote image count is adopted. -/
theorem c3_witness :
    (mergeHistoric ⟨0, 0, 0, 0, 0, 0, 5, 7⟩ (some 3) (some 9)).historic_cost = 5 ∧
    (mergeHistoric ⟨0, 0, 0, 0, 0, 0, 5, 7⟩ (some 3) (some 9)).historic_images = 9 := by
  obtain ⟨-, -, -, -, -, -, -, h8, -, -, h11⟩ :=
    c3_merge_lifetime ⟨0, 0, 0, 0, 0, 0, 5, 7⟩ 3 9
  exact ⟨h8 (by norm_num), h11 (by norm_num)⟩

/-- C4: `reset()` zeroes all six session fields and leaves `historic_cost`
and `historic_images` exactly unchanged. -/
theorem c4_reset_preserves_lifetime (s : TokenUsage) :
    s.reset.total = 0 ∧ s.reset.input = 0 ∧ s.reset.output_image = 0 ∧
    s.reset.output_text = 0 ∧ s.reset.images = 0 ∧ s.reset.total_cost = 0 ∧
    s.reset.historic_cost = s.historic_cost ∧
    s.reset.historic_images = s.historic_images := by
  simp [TokenUsage.reset]

/-- C5: decoding an encoded snapshot reproduces all eight fields, and each
absent field of a decoded snapshot comes out zero. -/
theorem c5_roundtrip :
    (∀ s : TokenUsage, TokenUsage.fromJSON s.toJSON.toOpt = s) ∧
    (∀ d : TokenUsageDataOpt,
      (d.total = none → (TokenUsage.fromJSON d).total = 0) ∧
      (d.input = none → (TokenUsage.fromJSON d).input = 0) ∧
      (d.output_image = none → (TokenUsage.fromJSON d).output_image = 0) ∧
      (d.output_text = none → (TokenUsage.fromJSON d).output_text = 0) ∧
      (d.images = none → (TokenUsage.fromJSON d).images = 0) ∧
      (d.total_cost = none → (TokenUsage.fromJSON d).total_cost = 0) ∧
      (d.historic_cost = none → (TokenUsage.fromJSON d).historic_cost = 0) ∧
      (d.historic_images = none → (TokenUsage.fromJSON d).historic_images = 0)) := by
  constructor
  · intro s; rfl
  · intro d
    refine ⟨?_, ?_, ?_, ?_, ?_, ?_, ?_, ?_⟩ <;>
      (intro h; simp [TokenUsage.fromJSON, h])

/-- Witness for C5: a concrete round trip and a decoded empty snapshot. -/
theorem c5_witness :
    TokenUsage.fromJSON (TokenUsage.toJSON ⟨1, 2, 3, 4, 5, 6, 7, 8⟩).toOpt =
      ⟨1, 2, 3, 4, 5, 6, 7, 8⟩ ∧
    (TokenUsage.fromJSON {}).total = 0 :=
  ⟨c5_roundtrip.1 _, (c5_roundtrip.2 {}).1 rfl⟩

/-- C6: `getCostBreakdown` leaves the ledger state unchanged and returns the
four cost figures computed from the current counters and the given model's
price table. -/
theorem c6_cost_breakdown_pure (s : TokenUsage) (m : ModelType) :
    (s.getCostBreakdown m).1 = s ∧
    (s.getCostBreakdown m).2 =
      { inputCost := s.input * (PRICING m).input
        outputCost := s.output_text * (PRICING m).output_text +
          s.output_image * (PRICING m).output_image +
          s.images * (PRICING m).output_imageflat
        totalCost := s.total_cost
        historic_cost := s.historic_cost } :=
  ⟨rfl, rfl⟩

/-- C7 (counterexample): delete the only prompt item; the state is dirty and
the threshold has elapsed at t = 5000, yet the tick does not flush, because
the interval callback returns early when the item list is empty — so the
claimed "fires iff dirty and elapsed ≥ threshold" is false. -/
theorem c7_counterexample :
    ((runEd (mountEd [demoItem] "" "") [.removePrompt 0 0]).1.hasChanges = true) ∧
    (5000 ≤ 5000 -
      (runEd (mountEd [demoItem] "" "") [.removePrompt 0 0]).1.lastInputTime) ∧
    ((stepEd (runEd (mountEd [demoItem] "" "") [.removePrompt 0 0]).1
      (.tick 5000 true)).2 = none) := by
  decide

/-- C7 (amended): a tick flushes iff the item list is non-empty, the dirty
flag is set, and at least 5000 ms have elapsed since the last edit; scenario:
edits at t = 0 and t = 3000 produce no flush at t = 5000 and a flush at
t = 8000 when no further edits occur. -/
theorem c7_quiet_period :
    (∀ (s : EditorSys) (now : ℕ) (ok : Bool),
      ((stepEd s (.tick now ok)).2).isSome = true ↔
        (s.items ≠ [] ∧ s.hasChanges = true ∧ 5000 ≤ now - s.lastInputTime)) ∧
    ((runEd (mountEd [demoItem] "" "")
      [.beforeEdit "x" 0, .beforeEdit "y" 3000, .tick 5000 true]).2 = []) ∧
    ((runEd (mountEd [demoItem] "" "")
      [.beforeEdit "x" 0, .beforeEdit "y" 3000, .tick 5000 true,
       .tick 8000 true]).2 = [⟨"Prompts saved to cloud.", .success⟩]) := by
  refine ⟨?_, by decide, by decide⟩
  intro s now ok
  simp only [stepEd, tickStep]
  split_ifs with h1 h2 h3 <;>
    simp_all [List.isEmpty_iff, triggerSave, handleSavePrompts,
      updateUserDocument]

/-- Witness for C7: a dirty editor with a non-empty list flushes at
t = 8000. -/
theorem c7_witness :
    ((stepEd ((runEd (mountEd [demoItem] "" "") [.nameEdit 0 "a" 0]).1)
      (.tick 8000 true)).2).isSome = true :=
  (c7_quiet_period.1 _ 8000 true).mpr ⟨by decide, by decide, by decide⟩

/-- C8 (counterexample): a fired flush whose remote write fails is logged as
an error, but `hasUnflushedChanges` does not remain `true` — `triggerSave`
clears it unconditionally, so the next tick does not retry. -/
theorem c8_counterexample :
    ((stepEd ((runEd (mountEd [demoItem] "" "") [.nameEdit 0 "a" 0]).1)
        (.tick 6000 false)).2 =
      some ⟨"Failed to save prompts.", .error⟩) ∧
    ((stepEd ((runEd (mountEd [demoItem] "" "") [.nameEdit 0 "a" 0]).1)
        (.tick 6000 false)).1.hasChanges = false) := by
  decide

/-- C8 (amended): when a fired flush's remote write fails, the failure is
caught and surfaced as the "Failed to save prompts." error log (never an
exception), but the dirty flag is cleared unconditionally, so a later tick
without new edits does not retry the flush. -/
theorem c8_flush_failure (s : EditorSys) (now : ℕ) (h1 : s.items ≠ [])
    (h2 : s.hasChanges = true) (h3 : 5000 ≤ now - s.lastInputTime) :
    (stepEd s (.tick now false)).1.hasChanges = false ∧
    (stepEd s (.tick now false)).2 = some ⟨"Failed to save prompts.", .error⟩ ∧
    ∀ now', (stepEd (stepEd s (.tick now false)).1 (.tick now' true)).2 = none := by
  have h1' : s.items.isEmpty = false := by
    simp [List.isEmpty_iff, h1]
  refine ⟨?_, ?_, ?_⟩ <;>
    simp [stepEd, tickStep, triggerSave, handleSavePrompts,
      updateUserDocument, h1', h2, h3]

/-- Witness for C8: the amended behavior on a concrete dirty editor. -/
theorem c8_witness :
    (stepEd ((runEd (mountEd [demoItem] "" "") [.nameEdit 0 "a" 0]).1)
      (.tick 9000 false)).1.hasChanges = false ∧
    (stepEd ((runEd (mountEd [demoItem] "" "") [.nameEdit 0 "a" 0]).1)
      (.tick 9000 false)).2 = some ⟨"Failed to save prompts.", .error⟩ := by
  have h := c8_flush_failure ((runEd (mountEd [demoItem] "" "")
    [.nameEdit 0 "a" 0]).1) 9000 (by decide) (by decide) (by decide)
  exact ⟨h.1, h.2.1⟩

/-- C9 (counterexample): after a local edit and a successful flush (dirty
flag back to `false`), a genuinely different inbound remote update is still
not applied to the item list — re-initialization is skipped forever once
`isInitialized` is set. -/
theorem c9_counterexample :
    ((runEd (mountEd [demoItem] "" "") [.nameEdit 0 "edited" 0,
        .tick 6000 true]).2 = [⟨"Prompts saved to cloud.", .success⟩]) ∧
    ((runEd (mountEd [demoItem] "" "") [.nameEdit 0 "edited" 0,
        .tick 6000 true]).1.hasChanges = false) ∧
    ((runEd (mountEd [demoItem] "" "") [.nameEdit 0 "edited" 0,
        .tick 6000 true, .inboundUpdate [demoRemote] "" ""]).1.items ≠
      [demoRemote]) := by
  decide

/-- C9 (amended): an inbound remote update is applied to the item list only
at first initialization; once the editor is initialized, inbound updates
never touch the item list (in particular never while `hasUnflushedChanges`
is true, but also not after a successful flush). -/
theorem c9_inbound_gating (s : EditorSys) (ps : List PromptItem)
    (b a : String) :
    (s.isInitialized = true →
      (stepEd s (.inboundUpdate ps b a)).1.items = s.items) ∧
    (s.isInitialized = false → s.isLocalChange = false →
      (stepEd s (.inboundUpdate ps b a)).1.items = ps) := by
  constructor
  · intro h
    by_cases hl : s.isLocalChange <;> simp [stepEd, propsSyncEffects, h, hl]
  · intro h hl
    simp [stepEd, propsSyncEffects, h, hl]

/-- Witness for C9: after mounting (initialized), an inbound update leaves
the items as they were. -/
theorem c9_witness :
    (stepEd (mountEd [demoItem] "" "")
      (.inboundUpdate [demoRemote] "" "")).1.items = [demoItem] := by
  have h := (c9_inbound_gating (mountEd [demoItem] "" "") [demoRemote]
    "" "").1 (by decide)
  exact h.trans (by decide)

/-- C10: an enabled item whose name is blank after trimming contributes no
task wherever it sits in the list, and a non-empty list whose enabled items
all have blank names is rejected at batch start with the
"No prompts selected." error. -/
theorem c10_blank_names :
    (∀ (l1 l2 : List PromptItem) (p : PromptItem) (b a : Option String)
       (f : List String),
      p.enabled = true → jsTrim p.name = "" →
      buildTasks (l1 ++ p :: l2) b a f = buildTasks (l1 ++ l2) b a f) ∧
    (∀ (ps : List PromptItem) (files : List String) (key : Bool),
      ps ≠ [] → (∀ q ∈ ps, q.enabled = true → jsTrim q.name = "") →
      checkStart (some ps) files key = .error .noPromptsSelected) := by
  constructor
  · intro l1 l2 p b a f hp hn
    have hsel : promptSelected p = false := by simp [promptSelected, hp, hn]
    simp [buildTasks, List.filter_append, List.filter_cons, hsel]
  · intro ps files key hne hblank
    have hfil : ps.filter promptSelected = [] := by
      rw [List.filter_eq_nil_iff]
      intro q hq
      cases hqe : q.enabled
      · simp [promptSelected, hqe]
      · simp [promptSelected, hqe, hblank q hq hqe]
    have hne' : ps.isEmpty = false := by simp [List.isEmpty_iff, hne]
    simp [checkStart, hne', hfil]

/-- Witness for C10: a single enabled, whitespace-named item. -/
theorem c10_witness :
    (buildTasks [⟨" ", "x", true, false⟩] none none ["f"] =
      buildTasks [] none none ["f"]) ∧
    (checkStart (some [⟨" ", "x", true, false⟩]) ["f"] true =
      .error .noPromptsSelected) := by
  constructor
  · exact c10_blank_names.1 [] [] ⟨" ", "x", true, false⟩ none none ["f"]
      rfl (by decide)
  · exact c10_blank_names.2 [⟨" ", "x", true, false⟩] ["f"] true
      (by decide) (by decide)

end Banana
